import Mathlib

/-!
Verification of the multi-tenant project-management backend.

This file gives a shallow embedding of the organization-isolation and
access-control layer of the backend (Django models, permission classes,
the GraphQL context, the organization middleware, JWT authentication and
the CRUD mutations) and proves or refutes the specification claims about
it.  Each definition is translated from the corresponding Python source
file, named in its doc comment.  External collaborators (JWT signature
verification, Django email validation) are passed in as function
parameters, matching the spec's treatment of them as black boxes.
-/

namespace PM

/-- Organization row (`core/models.py`, class `Organization`): tenant root
with a unique slug and an active flag. -/
structure Organization where
  id : Nat
  name : String
  slug : String
  contactEmail : String
  description : String
  isActive : Bool
deriving Repr, DecidableEq

/-- User row (`accounts/models.py`, class `User`).  As in the ORM, the
`organization` attribute materialises the related Organization object
(nullable foreign key). -/
structure User where
  id : Nat
  email : String
  organization : Option Organization
  isOrganizationAdmin : Bool
  isSuperuser : Bool
  isActive : Bool
deriving Repr, DecidableEq

/-- Project row (`core/models.py`, class `Project`); the foreign key to its
organization is stored by id, as in the database. -/
structure Project where
  id : Nat
  organizationId : Nat
  name : String
  description : String
  status : String
  dueDate : Option Int
deriving Repr, DecidableEq

/-- Task row (`core/models.py`, class `Task`). -/
structure Task where
  id : Nat
  projectId : Nat
  title : String
  description : String
  status : String
  assigneeEmail : String
  dueDate : Option Int
deriving Repr, DecidableEq

/-- TaskComment row (`core/models.py`, class `TaskComment`). -/
structure TaskComment where
  id : Nat
  taskId : Nat
  content : String
  authorEmail : String
deriving Repr, DecidableEq

/-- A row of a model the scoping layer does not recognise (used for the
fail-closed branches of the two tenant filters). -/
structure UnknownRow where
  id : Nat
deriving Repr, DecidableEq

/-- Lowercase a single ASCII letter (Python `str.lower` on the
characters the inputs here use). -/
def lowerChar (c : Char) : Char :=
  if 'A' ≤ c && c ≤ 'Z' then Char.ofNat (c.toNat + 32) else c

/-- Python `s.lower()`. -/
def pyLower (s : String) : String := ⟨s.toList.map lowerChar⟩

/-- The whitespace characters Python `str.strip` removes. -/
def isPySpace (c : Char) : Bool :=
  c == ' ' || c == '\t' || c == '\n' || c == '\r'

/-- Python `s.strip()`. -/
def pyStrip (s : String) : String :=
  ⟨((s.toList.dropWhile isPySpace).reverse.dropWhile isPySpace).reverse⟩

/-- Python `s.startswith(pre)`. -/
def pyStartsWith (s pre : String) : Bool := pre.toList.isPrefixOf s.toList

/-- Python `s.endswith(suf)`. -/
def pyEndsWith (s suf : String) : Bool := suf.toList.isSuffixOf s.toList

/-- Split at the first space, Python `s.split(" ", 1)` when it yields two
parts (`none` models the `ValueError` of unpacking a spaceless header). -/
def breakAtFirstSpace : List Char → Option (List Char × List Char)
  | [] => none
  | c :: rest =>
      if c == ' ' then some ([], rest)
      else
        match breakAtFirstSpace rest with
        | some (a, b) => some (c :: a, b)
        | none => none

/-- Python `s.split(" ")`: split at every space, keeping empty parts. -/
def splitCharsOnSpace : List Char → List (List Char)
  | [] => [[]]
  | c :: rest =>
      let r := splitCharsOnSpace rest
      if c == ' ' then [] :: r
      else
        match r with
        | h :: t => (c :: h) :: t
        | [] => [[c]]

/-- The caller of a request: Django's `AnonymousUser` or an authenticated
`User` instance. -/
inductive Principal where
  | anonymous
  | user (u : User)
deriving Repr, DecidableEq

/-- Source `user.is_authenticated`: `False` for `AnonymousUser`, `True` for every
`User` instance (Django semantics). -/
def Principal.isAuthenticated : Principal → Bool
  | .anonymous => false
  | .user _ => true

/-- The backing store: one list per entity collection. -/
structure DB where
  organizations : List Organization
  projects : List Project
  tasks : List Task
  tasks_comments : List TaskComment
  users : List User
deriving Repr, DecidableEq

/-- Look up a project row by primary key (the task → project join). -/
def DB.findProject (db : DB) (pid : Nat) : Option Project :=
  db.projects.find? (fun p => p.id == pid)

/-- Look up a task row by primary key (the comment → task join). -/
def DB.findTask (db : DB) (tid : Nat) : Option Task :=
  db.tasks.find? (fun t => t.id == tid)

/-- Organization id owning a task, through its project
(`project__organization` join; a dangling key joins to nothing). -/
def taskOrgId (db : DB) (t : Task) : Option Nat :=
  (db.findProject t.projectId).map (·.organizationId)

/-- Organization id owning a comment, through its task's project
(`task__project__organization` join). -/
def commentOrgId (db : DB) (c : TaskComment) : Option Nat :=
  (db.findTask c.taskId).bind (taskOrgId db)

/-- A Django queryset tagged by the model it ranges over; the tag drives
the dispatch of the two scoping filters. -/
inductive QuerySet where
  | orgs (rows : List Organization)
  | projects (rows : List Project)
  | tasks (rows : List Task)
  | comments (rows : List TaskComment)
  | users (rows : List User)
  | unknown (modelName : String) (rows : List UnknownRow)
deriving Repr, DecidableEq

/-- Rows of a project queryset (empty for any other model). -/
def QuerySet.projectRows : QuerySet → List Project
  | .projects rows => rows
  | _ => []

/-- Rows of a task queryset (empty for any other model). -/
def QuerySet.taskRows : QuerySet → List Task
  | .tasks rows => rows
  | _ => []

/-- Rows of a comment queryset (empty for any other model). -/
def QuerySet.commentRows : QuerySet → List TaskComment
  | .comments rows => rows
  | _ => []

/-- Rows of an unknown-model queryset (empty for any other model). -/
def QuerySet.unknownRows : QuerySet → List UnknownRow
  | .unknown _ rows => rows
  | _ => []

/-- Source `core/permissions.py`, `filter_queryset_by_organization`: dispatch on
the queryset's model; recognised models are filtered along the ownership
chain, a model with an `organization` attribute (the `User` model) is
filtered directly, and any other model yields `queryset.none()`. -/
def filter_queryset_by_organization (db : DB) (queryset : QuerySet)
    (organization : Organization) : QuerySet :=
  match queryset with
  | .orgs rows =>
      .orgs (rows.filter (fun o => o.id == organization.id && o.isActive))
  | .projects rows =>
      .projects (rows.filter (fun p => p.organizationId == organization.id))
  | .tasks rows =>
      .tasks (rows.filter (fun t => taskOrgId db t == some organization.id))
  | .comments rows =>
      .comments (rows.filter (fun c => commentOrgId db c == some organization.id))
  | .users rows =>
      .users (rows.filter (fun u => u.organization.map (·.id) == some organization.id))
  | .unknown n _ => .unknown n []

/-- A permission class (`core/permissions.py`, class `BasePermission`):
a check over (user, organization) plus an error message.  The object
argument of `has_permission` is ignored by the four classes modelled
here, so it is omitted. -/
structure BasePermission where
  has_permission : Principal → Option Organization → Bool
  get_error_message : String

/-- Source `core/permissions.py`, class `IsAuthenticated`. -/
def IsAuthenticated : BasePermission where
  has_permission := fun user _ => user.isAuthenticated
  get_error_message := "Authentication required"

/-- Source `core/permissions.py`, class `IsOrganizationMember`: authenticated,
organization given, user's own organization has the same id, and the
organization is active.  There is no superuser branch in the source. -/
def IsOrganizationMember : BasePermission where
  has_permission := fun user organization =>
    match user with
    | .anonymous => false
    | .user u =>
        match organization with
        | none => false
        | some org =>
            match u.organization with
            | none => false
            | some uorg => uorg.id == org.id && org.isActive
  get_error_message := "Organization membership required"

/-- Source `core/permissions.py`, class `IsOrganizationAdmin`: membership check
plus the `is_organization_admin` flag; again no superuser branch. -/
def IsOrganizationAdmin : BasePermission where
  has_permission := fun user organization =>
    if IsOrganizationMember.has_permission user organization then
      match user with
      | .anonymous => false
      | .user u => u.isOrganizationAdmin
    else false
  get_error_message := "Organization admin privileges required"

/-- Source `core/permissions.py`, class `IsSuperUser`. -/
def IsSuperUser : BasePermission where
  has_permission := fun user _ =>
    match user with
    | .anonymous => false
    | .user u => u.isSuperuser
  get_error_message := "Superuser privileges required"

/-- Source `core/permissions.py`, `check_permission` with `raise_exception=True`
as used inside `require_permission`: `ok` when the class grants, the
class's error message otherwise (`PermissionDenied(message)`). -/
def check_permission (permission : BasePermission) (user : Principal)
    (organization : Option Organization) : Except String Bool :=
  if permission.has_permission user organization then .ok true
  else .error permission.get_error_message

/-- The permission loop of `core/permissions.py`, `require_permission`:
check each class in declared order, stopping at the first failure. -/
def checkPermissionList (classes : List BasePermission) (user : Principal)
    (organization : Option Organization) : Except String Unit :=
  match classes with
  | [] => .ok ()
  | p :: rest =>
      match check_permission p user organization with
      | .error e => .error e
      | .ok _ => checkPermissionList rest user organization

/-- Source `core/permissions.py`, `require_permission(*permission_classes)`
applied to a resolver body: the body runs only after every class in the
list passes; the first failure is re-raised as a `GraphQLError` carrying
that class's message. -/
def require_permission {β : Type} (classes : List BasePermission)
    (user : Principal) (organization : Option Organization)
    (body : Unit → β) : Except String β :=
  match checkPermissionList classes user organization with
  | .error e => .error e
  | .ok _ => .ok (body ())

/-- Source `accounts/models.py`, `User.can_access_organization_by_slug`: false
when the user has no organization, otherwise a slug comparison against
the user's own organization.  No superuser branch. -/
def User.can_access_organization_by_slug (u : User) (slug : String) : Bool :=
  match u.organization with
  | none => false
  | some org => org.slug == slug

/-- Error message of `GraphQLContext.filter_by_organization` for a model
without a recognised organization relationship. -/
def unableToFilterMsg (modelName : String) : String :=
  "Unable to apply organization filtering to " ++ modelName

/-- Source `core/context.py`, `GraphQLContext.filter_by_organization`, applied
to a resolved context (authenticated flag and organization).  It first
runs `require_organization_context`, then dispatches on the model's
attributes: a direct `organization` field (Project, User), a `project`
field whose related model has an organization (Task), a `task` field
whose related model has a project (TaskComment); any other model —
including the Organization model itself, which has none of the three
attributes — raises a `GraphQLError` instead of returning rows. -/
def GraphQLContext_filter_by_organization (db : DB) (user : Principal)
    (organization : Option Organization) (queryset : QuerySet) :
    Except String QuerySet :=
  if ¬ user.isAuthenticated then .error "Authentication required"
  else
    match organization with
    | none => .error "Organization context required"
    | some org =>
        match queryset with
        | .projects rows =>
            .ok (.projects (rows.filter (fun p => p.organizationId == org.id)))
        | .users rows =>
            .ok (.users (rows.filter
              (fun u => u.organization.map (·.id) == some org.id)))
        | .tasks rows =>
            .ok (.tasks (rows.filter (fun t => taskOrgId db t == some org.id)))
        | .comments rows =>
            .ok (.comments (rows.filter
              (fun c => commentOrgId db c == some org.id)))
        | .orgs _ => .error (unableToFilterMsg "Organization")
        | .unknown n _ => .error (unableToFilterMsg n)

/-- Source `Organization.objects.get(slug=slug, is_active=True)` as used by the
context and the middleware (slug is unique by model invariant, so the
first match is the unique one). -/
def DB.getActiveOrgBySlug (db : DB) (slug : String) : Option Organization :=
  db.organizations.find? (fun o => o.slug == slug && o.isActive)

/-- Source `core/context.py`, `GraphQLContext.get_organization_by_slug`: fetch
the active organization with that slug; an authenticated caller gets it
when it is the caller's own organization or the caller is a superuser;
anyone else (including anonymous callers) gets `None`. -/
def GraphQLContext_get_organization_by_slug (db : DB) (user : Principal)
    (slug : String) : Option Organization :=
  match db.getActiveOrgBySlug slug with
  | none => none
  | some org =>
      match user with
      | .anonymous => none
      | .user u =>
          match u.organization with
          | some uorg =>
              if uorg.id == org.id then some org
              else if u.isSuperuser then some org else none
          | none => if u.isSuperuser then some org else none

/-- Outcome of `OrganizationMiddleware._process_api_request`: either the
request proceeds with `request.organization` set (possibly to nothing),
or the middleware short-circuits with a JSON error response. -/
inductive ApiRequestResult where
  | proceed (organization : Option Organization)
  | jsonError (status : Nat) (message : String)
deriving Repr, DecidableEq

/-- Source `core/middleware.py`, `OrganizationMiddleware._process_api_request`:
anonymous requests proceed with no organization; with a tenant header the
user's `can_access_organization_by_slug` gates access (403 on mismatch,
404 when the named organization is missing or inactive); without a
header the user's own organization is used.  Our `User` model always has
the `can_access_organization_by_slug` method, so the fallback branch of
the source is dead. -/
def OrganizationMiddleware_process_api_request (db : DB) (user : Principal)
    (orgSlugHeader : Option String) : ApiRequestResult :=
  match user with
  | .anonymous => .proceed none
  | .user u =>
      match orgSlugHeader with
      | some slug =>
          if u.can_access_organization_by_slug slug then
            match db.getActiveOrgBySlug slug with
            | some org => .proceed (some org)
            | none => .jsonError 404 "Organization not found"
          else .jsonError 403 "Access denied to organization"
      | none => .proceed u.organization

/-- Outcome of `jwt.decode` on a token string, treated as an external
collaborator: the signature/expiry check fails (expired or otherwise
invalid), or a payload with a `user_id` claim, a `type` claim and an
expiry that is or is not already past. -/
inductive DecodeResult where
  | expired
  | invalid
  | payload (userId : Nat) (typ : String) (expPast : Bool)
deriving Repr, DecidableEq

/-- Result of `JWTAuthentication.authenticate`: `none` when the class
declines to authenticate (missing header, malformed header, wrong
scheme), `failed msg` for `AuthenticationFailed(msg)`, `ok u` for the
`(user, token)` pair. -/
inductive AuthOutcome where
  | none
  | failed (message : String)
  | ok (u : User)
deriving Repr, DecidableEq

/-- Whether the outcome is an `AuthenticationFailed` error. -/
def AuthOutcome.isFailed : AuthOutcome → Bool
  | .failed _ => true
  | _ => false

/-- Python's `auth_header.split(" ", 1)` unpacked into two parts; `none`
models the `ValueError` taken when the header has no space. -/
def splitAuthHeader (s : String) : Option (String × String) :=
  match breakAtFirstSpace s.toList with
  | none => none
  | some (a, b) => some (⟨a⟩, ⟨b⟩)

/-- Source `accounts/authentication.py`, `JWTAuthentication.authenticate`:
return `None` when the header is absent, unsplittable or not a bearer
credential; raise `AuthenticationFailed` on expired or invalid tokens,
unknown users and disabled accounts; otherwise yield the user.  The
payload's `type` and expiry claims are not re-checked here. -/
def JWTAuthentication_authenticate (db : DB) (decode : String → DecodeResult)
    (authHeader : Option String) : AuthOutcome :=
  match authHeader with
  | none => .none
  | some header =>
      match splitAuthHeader header with
      | none => .none
      | some (authType, token) =>
          if pyLower authType != "bearer" then .none
          else
            match decode token with
            | .expired => .failed "Token has expired"
            | .invalid => .failed "Invalid token"
            | .payload userId _ _ =>
                match db.users.find? (fun u => u.id == userId) with
                | none => .failed "User not found"
                | some u =>
                    if ¬ u.isActive then .failed "User account is disabled"
                    else .ok u

/-- Source `graphql_api/utils.py`, `verify_jwt_token` for an access token:
`jwt.decode` failures (expired is a subclass of invalid) give `None`, as
do a wrong `type` claim and an already-past expiry; otherwise the
`user_id` of the payload. -/
def verify_jwt_token (decode : String → DecodeResult) (token : String) :
    Option Nat :=
  match decode token with
  | .expired => none
  | .invalid => none
  | .payload userId typ expPast =>
      if typ != "access" then none
      else if expPast then none
      else some userId

/-- Source `graphql_api/utils.py`, `get_user_from_jwt_token`: verify the token,
then fetch the active user with the payload's id. -/
def get_user_from_jwt_token (db : DB) (decode : String → DecodeResult)
    (token : String) : Option User :=
  match verify_jwt_token decode token with
  | none => none
  | some userId => db.users.find? (fun u => u.id == userId && u.isActive)

/-- Source `graphql_api/jwt_middleware.py`,
`JWTAuthenticationMiddleware.process_request`, restricted to the user it
installs on the request: every failure mode (no bearer prefix, malformed
header, empty token, invalid token, unknown or inactive user) silently
degrades to `AnonymousUser`. -/
def jwtMiddlewareUser (db : DB) (decode : String → DecodeResult)
    (authHeader : String) : Principal :=
  if ¬ pyStartsWith authHeader "Bearer " then .anonymous
  else
    let parts := splitCharsOnSpace authHeader.toList
    match (if parts.length == 2 then parts.getD 1 [] else []) with
    | [] => .anonymous
    | token =>
        match get_user_from_jwt_token db decode ⟨token⟩ with
        | some u => .user u
        | none => .anonymous

/-- The request object as seen by `GraphQLContext` (`core/context.py`):
the `user` attribute may be absent (then `getattr` falls back to
`AnonymousUser()`), and the `organization` attribute may be absent or
`None` (both read back as `None`). -/
structure HttpRequest where
  userAttr : Option Principal
  orgAttr : Option Organization
deriving Repr, DecidableEq

/-- Mutable state of a `GraphQLContext` instance
(`core/context.py`, `GraphQLContext.__init__`). -/
structure GQLContext where
  request : HttpRequest
  userCache : Option Principal
  orgCache : Option Organization
  userResolved : Bool
  orgResolved : Bool
deriving Repr, DecidableEq

/-- Source `GraphQLContext(request)`: caches empty, nothing resolved yet. -/
def GQLContext.init (request : HttpRequest) : GQLContext :=
  ⟨request, none, none, false, false⟩

/-- Source `getattr(self.request, "user", AnonymousUser())`. -/
def resolveRequestUser (request : HttpRequest) : Principal :=
  request.userAttr.getD .anonymous

/-- The `GraphQLContext.user` property: resolve from the request on the
first read, cache, and serve the cache afterwards.  The returned flag
records whether this read performed the resolution. -/
def GQLContext.readUser (s : GQLContext) : Principal × GQLContext × Bool :=
  if s.userResolved then (s.userCache.getD .anonymous, s, false)
  else
    let u := resolveRequestUser s.request
    (u, { s with userCache := some u, userResolved := true }, true)

/-- The tenant computation inside the `GraphQLContext.organization`
property, given the already-resolved user: middleware-set organization
first, else the authenticated user's own organization (`AnonymousUser`
has no `organization` attribute), and inactive organizations become
`None`. -/
def computeOrganization (request : HttpRequest) (user : Principal) :
    Option Organization :=
  if user.isAuthenticated then
    let fromRequest := request.orgAttr
    let candidate :=
      match fromRequest with
      | some o => some o
      | none =>
          match user with
          | .user u => u.organization
          | .anonymous => none
    match candidate with
    | some o => if ¬ o.isActive then none else some o
    | none => none
  else none

/-- The `GraphQLContext.organization` property: on the first read it
consults `self.user` (possibly triggering the identity resolution) and
computes the tenant, caches it, and serves the cache afterwards.  The
two flags record whether this read resolved the identity and the
tenant. -/
def GQLContext.readOrganization (s : GQLContext) :
    Option Organization × GQLContext × (Bool × Bool) :=
  if s.orgResolved then (s.orgCache, s, (false, false))
  else
    let (u, s1, idResolved) := s.readUser
    let org := computeOrganization s1.request u
    (org, { s1 with orgCache := org, orgResolved := true }, (idResolved, true))

/-- A resolver's read of the context: the `user` property or the
`organization` property. -/
inductive CtxOp where
  | readUser
  | readOrg
deriving Repr, DecidableEq

/-- Trace of running a sequence of context reads: final state, number of
identity resolutions, number of tenant resolutions, and the values each
read returned. -/
structure CtxTrace where
  state : GQLContext
  idResolutions : Nat
  tenantResolutions : Nat
  userValues : List Principal
  orgValues : List (Option Organization)
deriving Repr, DecidableEq

/-- Run a sequence of property reads against a context, instrumented
with resolution counts. -/
def ctxRun (s : GQLContext) : List CtxOp → CtxTrace
  | [] => ⟨s, 0, 0, [], []⟩
  | .readUser :: ops =>
      let (v, s1, idr) := s.readUser
      let t := ctxRun s1 ops
      ⟨t.state, (if idr then 1 else 0) + t.idResolutions, t.tenantResolutions,
        v :: t.userValues, t.orgValues⟩
  | .readOrg :: ops =>
      let (v, s1, r) := s.readOrganization
      let t := ctxRun s1 ops
      ⟨t.state, (if r.1 then 1 else 0) + t.idResolutions,
        (if r.2 then 1 else 0) + t.tenantResolutions,
        t.userValues, v :: t.orgValues⟩

/-- The tenant value a fresh context resolves for a request (one-shot
resolution, used to state the memoization theorem). -/
def resolvedOrganization (request : HttpRequest) : Option Organization :=
  computeOrganization request (resolveRequestUser request)

/-- Source `core/models.py`, `Project.STATUS_CHOICES`: the statuses the model
declares.  Note the list has no PLANNING entry. -/
def Project_STATUS_CHOICES : List (String × String) :=
  [("ACTIVE", "Active"), ("COMPLETED", "Completed"),
   ("ON_HOLD", "On Hold"), ("CANCELLED", "Cancelled")]

/-- Source `core/models.py`: the default ACTIVE of `Project.status`. -/
def Project_status_default : String := "ACTIVE"

/-- Source `graphql_api/types.py`, `ProjectStatusEnum`: the values the GraphQL
schema exposes for a project status. -/
def ProjectStatusEnum_values : List String :=
  ["PLANNING", "ACTIVE", "COMPLETED", "ON_HOLD", "CANCELLED"]

/-- Source `graphql_api/validators.py`, the `valid_statuses` list of
`validate_project_input`. -/
def valid_project_statuses : List String :=
  ["PLANNING", "ACTIVE", "COMPLETED", "ON_HOLD", "CANCELLED"]

/-- Source `graphql_api/validators.py`, the `valid_statuses` list of
`validate_task_input`. -/
def valid_task_statuses : List String := ["TODO", "IN_PROGRESS", "DONE"]

/-- Source `graphql_api/mutations.py`, `OrganizationInput` (snake_case fields). -/
structure OrganizationInput where
  name : String
  slug : String
  contact_email : String
  description : Option String
deriving Repr, DecidableEq

/-- Source `graphql_api/mutations.py`, `ProjectInput`.  The GraphQL layer hands
the status over as its string value and the due date as a date object,
modelled as an integer day number. -/
structure ProjectInput where
  name : String
  description : Option String
  status : Option String
  dueDate : Option Int
deriving Repr, DecidableEq

/-- Source `graphql_api/mutations.py`, `TaskInput` (camelCase fields; the
file itself notes "Use camelCase naming convention").  The graphene
container's dict keys and attributes are exactly these camelCase names,
so the snake_case lookups `assignee_email`, `due_date` and `project_id`
that `validate_task_input` performs never find a value. -/
structure TaskInput where
  title : Option String
  description : Option String
  status : Option String
  assigneeEmail : Option String
  dueDate : Option Int
  projectId : Option Nat
deriving Repr, DecidableEq

/-- Two consecutive hyphens somewhere in the characters
(the `"--" in slug` test). -/
def hasConsecHyphens : List Char → Bool
  | '-' :: '-' :: _ => true
  | _ :: rest => hasConsecHyphens rest
  | [] => false

/-- The character class of the slug pattern `^[a-z0-9-]+$`. -/
def slugChar (c : Char) : Bool :=
  ('a' ≤ c && c ≤ 'z') || ('0' ≤ c && c ≤ '9') || c == '-'

/-- Source `graphql_api/validators.py`, the `reserved_slugs` list. -/
def reserved_slugs : List String :=
  ["admin", "api", "www", "mail", "ftp", "localhost", "app", "web",
   "blog", "news", "support", "help", "docs", "status"]

/-- Source `graphql_api/validators.py`, `validate_organization_input`.  Django's
`validate_email` is the external `emailOk` parameter.  The reserved-slug
message quotes the slug in the source; the quotes are dropped here. -/
def validate_organization_input (emailOk : String → Bool)
    (input : OrganizationInput) : List String :=
  let nameErrs :=
    if input.name == "" || pyStrip input.name == "" then
      ["Organization name is required"]
    else if (pyStrip input.name).length < 2 then
      ["Organization name must be at least 2 characters long"]
    else if (pyStrip input.name).length > 100 then
      ["Organization name cannot exceed 100 characters"]
    else []
  let slug := pyLower (pyStrip input.slug)
  let slugErrs :=
    if slug == "" then ["Organization slug is required"]
    else if slug.length < 2 then
      ["Organization slug must be at least 2 characters long"]
    else if slug.length > 50 then
      ["Organization slug cannot exceed 50 characters"]
    else if ¬ slug.toList.all slugChar then
      ["Organization slug can only contain lowercase letters, numbers, and hyphens"]
    else if pyStartsWith slug "-" || pyEndsWith slug "-" then
      ["Organization slug cannot start or end with a hyphen"]
    else if hasConsecHyphens slug.toList then
      ["Organization slug cannot contain consecutive hyphens"]
    else []
  let reservedErrs :=
    if reserved_slugs.contains slug then
      ["The slug " ++ slug ++ " is reserved and cannot be used"]
    else []
  let contactEmail := pyStrip input.contact_email
  let emailErrs :=
    if contactEmail == "" then ["Contact email is required"]
    else if emailOk contactEmail then []
    else ["Invalid contact email format"]
  let description := input.description.getD ""
  let descErrs :=
    if description != "" && description.length > 1000 then
      ["Organization description cannot exceed 1000 characters"]
    else []
  nameErrs ++ slugErrs ++ reservedErrs ++ emailErrs ++ descErrs

/-- Source `graphql_api/validators.py`, `validate_project_input`.  GraphQL Date
input arrives as a date object, so the string-parsing branch is dead;
dates are integer day numbers compared against `today`. -/
def validate_project_input (today : Int) (input : ProjectInput)
    (existing : Option Project) : List String :=
  let nameErrs :=
    if input.name == "" || pyStrip input.name == "" then
      ["Project name is required"]
    else if (pyStrip input.name).length < 2 then
      ["Project name must be at least 2 characters long"]
    else if (pyStrip input.name).length > 200 then
      ["Project name cannot exceed 200 characters"]
    else []
  let description := input.description.getD ""
  let descErrs :=
    if description != "" && description.length > 2000 then
      ["Project description cannot exceed 2000 characters"]
    else []
  let statusErrs :=
    match input.status with
    | some s =>
        if s != "" && ¬ valid_project_statuses.contains s then
          ["Invalid project status. Must be one of: PLANNING, ACTIVE, COMPLETED, ON_HOLD, CANCELLED"]
        else []
    | none => []
  let dueErrs :=
    match input.dueDate with
    | some d =>
        if d < today && existing.isNone then
          ["Project due date cannot be in the past"]
        else []
    | none => []
  nameErrs ++ descErrs ++ statusErrs ++ dueErrs

/-- Source `graphql_api/validators.py`, `validate_task_input`, applied
to a `TaskInput` container.  The title/description/status lookups use
keys the container carries; the `assignee_email`, `due_date` and
`project_id` lookups use snake_case keys the camelCase container never
supplies, so they fall back to their defaults (`""`, `None`, `None`):
the assignee and due-date checks are dead, and for a new task the
Project-ID requirement always fires.  The assignee-exists lookup never
produces an error and is omitted; datetimes are integer ticks with
`oneDay` ticks to a day. -/
def validate_task_input (emailOk : String → Bool) (now oneDay : Int)
    (input : TaskInput) (existing : Option Task) : List String :=
  let titleErrs :=
    match input.title with
    | none => ["Task title is required"]
    | some t =>
        if t == "" || pyStrip t == "" then ["Task title is required"]
        else if (pyStrip t).length < 2 then
          ["Task title must be at least 2 characters long"]
        else if (pyStrip t).length > 200 then
          ["Task title cannot exceed 200 characters"]
        else []
  let description := input.description.getD ""
  let descErrs :=
    if description != "" && description.length > 2000 then
      ["Task description cannot exceed 2000 characters"]
    else []
  let statusErrs :=
    match input.status with
    | some s =>
        if s != "" && ¬ valid_task_statuses.contains s then
          ["Invalid task status. Must be one of: TODO, IN_PROGRESS, DONE"]
        else []
    | none => []
  -- input_data.get("assignee_email", ""): no such key in the container
  let assignee := pyStrip ""
  let assigneeErrs :=
    if assignee != "" && ¬ emailOk assignee then
      ["Invalid assignee email format"]
    else []
  -- input_data.get("due_date"): no such key in the container
  let dueDateKey : Option Int := none
  let dueErrs :=
    match dueDateKey with
    | some d =>
        if d < now && existing.isNone then
          if d < now - oneDay then
            ["Task due date cannot be more than 1 day in the past"]
          else []
        else []
    | none => []
  -- input_data.get("project_id"): no such key in the container
  let projectIdKey : Option Nat := none
  let projectErrs :=
    if existing.isNone && projectIdKey.isNone then
      ["Project ID is required for new tasks"]
    else []
  titleErrs ++ descErrs ++ statusErrs ++ assigneeErrs ++ dueErrs ++ projectErrs

/-- Fresh primary key: one past the largest id in use. -/
def nextId (ids : List Nat) : Nat := ids.foldr max 0 + 1

/-- Fresh organization id. -/
def DB.nextOrgId (db : DB) : Nat := nextId (db.organizations.map (·.id))

/-- Fresh project id. -/
def DB.nextProjectId (db : DB) : Nat := nextId (db.projects.map (·.id))

/-- Fresh task id. -/
def DB.nextTaskId (db : DB) : Nat := nextId (db.tasks.map (·.id))

/-- Payload of `CreateOrganization` (`graphql_api/mutations.py`). -/
structure CreateOrganizationPayload where
  organization : Option Organization
  success : Bool
  errors : List String
deriving Repr, DecidableEq

/-- Payload of `CreateProject` / `UpdateProject`. -/
structure ProjectMutationPayload where
  project : Option Project
  success : Bool
  errors : List String
deriving Repr, DecidableEq

/-- The organization `CreateOrganization` builds from its input (created
rows are active by the model default). -/
def newOrganizationOf (db : DB) (input : OrganizationInput) : Organization :=
  { id := db.nextOrgId
    name := input.name
    slug := input.slug
    contactEmail := input.contact_email
    description := input.description.getD ""
    isActive := true }

/-- Body of `graphql_api/mutations.py`, `CreateOrganization.mutate`
(inside the `IsAuthenticated` decorator): validate, reject duplicate
slugs, then atomically create the organization and re-home the caller as
its admin.  The source's `if not user` guard can never fire (an
`AnonymousUser` is truthy) and is unreachable behind the decorator. -/
def CreateOrganization_body (db : DB) (emailOk : String → Bool) (u : User)
    (input : OrganizationInput) : CreateOrganizationPayload × DB :=
  let errors := validate_organization_input emailOk input
  if errors ≠ [] then (⟨none, false, errors⟩, db)
  else if db.organizations.any (fun o => o.slug == input.slug) then
    (⟨none, false, ["Organization with this slug already exists"]⟩, db)
  else
    let org := newOrganizationOf db input
    let db' :=
      { db with
        organizations := db.organizations ++ [org]
        users := db.users.map (fun v =>
          if v.id == u.id then
            { v with organization := some org, isOrganizationAdmin := true }
          else v) }
    (⟨some org, true, []⟩, db')

/-- Source `graphql_api/mutations.py`, `CreateOrganization.mutate` with its
`@require_permission(IsAuthenticated)` decorator: anonymous callers get
the `GraphQLError` and nothing is written. -/
def CreateOrganization_mutate (db : DB) (emailOk : String → Bool)
    (caller : Principal) (input : OrganizationInput) :
    Except String CreateOrganizationPayload × DB :=
  match checkPermissionList [IsAuthenticated] caller none with
  | .error e => (.error e, db)
  | .ok _ =>
      match caller with
      | .anonymous => (.error "Authentication required", db)
      | .user u =>
          let (payload, db') := CreateOrganization_body db emailOk u input
          (.ok payload, db')

/-- Source `Organization.objects.get_or_create(name="Default Organization",
slug="default-org", defaults=...)` as used by `CreateTask`, `UpdateTask`
and `CreateProject` for callers without an organization. -/
def get_or_create_default_org (db : DB) (contactEmail : String) :
    Organization × DB :=
  match db.organizations.find?
      (fun o => o.name == "Default Organization" && o.slug == "default-org") with
  | some o => (o, db)
  | none =>
      let o : Organization :=
        { id := db.nextOrgId
          name := "Default Organization"
          slug := "default-org"
          contactEmail := contactEmail
          description := "Default organization for testing"
          isActive := true }
      (o, { db with organizations := db.organizations ++ [o] })

/-- Body of `graphql_api/mutations.py`, `CreateProject.mutate` (inside
its `IsAuthenticated`-only decorator): a caller without an organization
gets the default organization created and attached; the input is
validated; the per-organization name-uniqueness check runs through
`filter_queryset_by_organization`; the status defaults to `"PLANNING"`
(`input.get("status", "PLANNING")`). -/
def CreateProject_body (db : DB) (today : Int) (u : User)
    (input : ProjectInput) : ProjectMutationPayload × DB :=
  let orgAndDb : Organization × DB :=
    match u.organization with
    | some org => (org, db)
    | none =>
        let od := get_or_create_default_org db u.email
        let org := od.1
        let dbx := od.2
        (org,
          { dbx with
            users := dbx.users.map (fun v =>
              if v.id == u.id then { v with organization := some org } else v) })
  let organization := orgAndDb.1
  let db1 := orgAndDb.2
  let errors := validate_project_input today input none
  if errors ≠ [] then (⟨none, false, errors⟩, db1)
  else
    let sameName := db1.projects.filter
      (fun p => p.organizationId == organization.id && p.name == input.name)
    if (filter_queryset_by_organization db1 (.projects sameName)
        organization).projectRows ≠ [] then
      (⟨none, false, ["Project with this name already exists in organization"]⟩,
        db1)
    else
      let statusValue := input.status.getD "PLANNING"
      let project : Project :=
        { id := db1.nextProjectId
          organizationId := organization.id
          name := input.name
          description := input.description.getD ""
          status := statusValue
          dueDate := input.dueDate }
      (⟨some project, true, []⟩,
        { db1 with projects := db1.projects ++ [project] })

/-- Source `graphql_api/mutations.py`, `CreateProject.mutate` with its
decorator (`IsOrganizationMember` is commented out in the source). -/
def CreateProject_mutate (db : DB) (today : Int) (caller : Principal)
    (input : ProjectInput) : Except String ProjectMutationPayload × DB :=
  match checkPermissionList [IsAuthenticated] caller none with
  | .error e => (.error e, db)
  | .ok _ =>
      match caller with
      | .anonymous => (.error "Authentication required", db)
      | .user u =>
          let (payload, db') := CreateProject_body db today u input
          (.ok payload, db')

/-- For a new task the validator always fails on the absent snake_case
`project_id` key, so `CreateTask.mutate` never gets past validation. -/
theorem validate_task_input_always_fails_for_creates
    (emailOk : String → Bool) (now oneDay : Int) (input : TaskInput) :
    "Project ID is required for new tasks"
      ∈ validate_task_input emailOk now oneDay input none := by
  simp [validate_task_input]

/-- Sample tenant one. -/
def acme : Organization := ⟨1, "Acme", "acme", "contact@acme.test", "", true⟩

/-- Sample tenant two. -/
def globex : Organization := ⟨2, "Globex", "globex", "contact@globex.test", "", true⟩

/-- Admin member of `acme`. -/
def aliceU : User := ⟨1, "alice@acme.test", some acme, true, false, true⟩

/-- Plain member of `globex`. -/
def bobU : User := ⟨2, "bob@globex.test", some globex, false, false, true⟩

/-- Superuser whose own organization is `acme`. -/
def rootU : User := ⟨3, "root@acme.test", some acme, false, true, true⟩

/-- Disabled account. -/
def sleepyU : User := ⟨4, "sleepy@acme.test", some acme, false, false, false⟩

/-- Project of `acme`. -/
def websiteP : Project := ⟨1, 1, "Website", "", "ACTIVE", none⟩

/-- Project of `globex`. -/
def intranetP : Project := ⟨2, 2, "Intranet", "", "ACTIVE", none⟩

/-- Task under `websiteP`. -/
def designT : Task := ⟨1, 1, "Design", "", "TODO", "", none⟩

/-- Task under `intranetP`. -/
def deployT : Task := ⟨2, 2, "Deploy", "", "TODO", "", none⟩

/-- Comment under `designT`. -/
def designC : TaskComment := ⟨1, 1, "looks good", "alice@acme.test"⟩

/-- Comment under `deployT`. -/
def deployC : TaskComment := ⟨2, 2, "ship it", "bob@globex.test"⟩

/-- The sample store. -/
def sampleDB : DB :=
  ⟨[acme, globex], [websiteP, intranetP], [designT, deployT],
   [designC, deployC], [aliceU, bobU, rootU, sleepyU]⟩

/-- Claim C1: `filter_queryset_by_organization` applied under tenant T2
keeps only Project / Task / TaskComment rows owned (directly or via
`project` / `task.project`) by T2; consequently no row owned by a
different tenant T1 appears in a query scoped to T2. -/
theorem tenant_isolation_of_filter_queryset (db : DB) (T1 T2 : Organization)
    (ps : List Project) (ts : List Task) (cs : List TaskComment)
    (hne : T1.id ≠ T2.id) :
    (∀ p ∈ (filter_queryset_by_organization db (.projects ps) T2).projectRows,
        p.organizationId = T2.id ∧ ¬ p.organizationId = T1.id) ∧
    (∀ t ∈ (filter_queryset_by_organization db (.tasks ts) T2).taskRows,
        taskOrgId db t = some T2.id ∧ ¬ taskOrgId db t = some T1.id) ∧
    (∀ c ∈ (filter_queryset_by_organization db (.comments cs) T2).commentRows,
        commentOrgId db c = some T2.id ∧ ¬ commentOrgId db c = some T1.id) := by
  refine ⟨?_, ?_, ?_⟩
  · intro p hp
    simp only [filter_queryset_by_organization, QuerySet.projectRows,
      List.mem_filter, beq_iff_eq] at hp
    exact ⟨hp.2, fun h => hne (h ▸ hp.2.symm ▸ rfl)⟩
  · intro t ht
    simp only [filter_queryset_by_organization, QuerySet.taskRows,
      List.mem_filter, beq_iff_eq] at ht
    refine ⟨ht.2, fun h => ?_⟩
    rw [ht.2] at h
    exact hne (Option.some.inj h).symm
  · intro c hc
    simp only [filter_queryset_by_organization, QuerySet.commentRows,
      List.mem_filter, beq_iff_eq] at hc
    refine ⟨hc.2, fun h => ?_⟩
    rw [hc.2] at h
    exact hne (Option.some.inj h).symm

/-- Witness for C1 at the sample store: scoping projects to `globex`
keeps `intranetP` and certifies it is not owned by `acme`. -/
theorem tenant_isolation_of_filter_queryset_witness :
    acme.id ≠ globex.id ∧
    (intranetP.organizationId = globex.id ∧
      ¬ intranetP.organizationId = acme.id) :=
  ⟨by decide,
    (tenant_isolation_of_filter_queryset sampleDB acme globex
      [websiteP, intranetP] [] [] (by decide)).1 intranetP (by decide)⟩

/-- Claim C4 counterexample: a superuser (`rootU`, member of `acme`)
checked against the other active organization `globex` fails both the
TenantMember and the TenantAdmin policy — the superuser flag does not
make them pass regardless of membership. -/
theorem superuser_not_bypassing_member_admin :
    (Principal.user rootU).isAuthenticated = true ∧
    rootU.isSuperuser = true ∧
    globex.isActive = true ∧
    IsOrganizationMember.has_permission (.user rootU) (some globex) = false ∧
    IsOrganizationAdmin.has_permission (.user rootU) (some globex) = false := by
  decide

/-- Claim C4 amended: the superuser flag has no effect at all on
`IsOrganizationMember` and `IsOrganizationAdmin` (they demand actual
membership of an active organization regardless of the flag), and the
`IsAuthenticated` policy fails for every anonymous principal. -/
theorem member_admin_checks_ignore_superuser_flag (u : User)
    (org : Option Organization) (b : Bool) :
    IsOrganizationMember.has_permission (.user u) org
      = IsOrganizationMember.has_permission
          (.user { u with isSuperuser := b }) org ∧
    IsOrganizationAdmin.has_permission (.user u) org
      = IsOrganizationAdmin.has_permission
          (.user { u with isSuperuser := b }) org ∧
    IsAuthenticated.has_permission .anonymous org = false :=
  ⟨rfl, rfl, rfl⟩

/-- All classes up to the first failing one pass: the permission loop
returns `ok` when every class grants. -/
theorem checkPermissionList_ok_of_all (classes : List BasePermission)
    (user : Principal) (org : Option Organization)
    (h : classes.all (fun p => p.has_permission user org) = true) :
    checkPermissionList classes user org = .ok () := by
  induction classes with
  | nil => rfl
  | cons p rest ih =>
      simp only [List.all_cons, Bool.and_eq_true] at h
      simp only [checkPermissionList, check_permission, h.1, if_pos]
      exact ih h.2

/-- The permission loop surfaces exactly the first failing class's
message. -/
theorem checkPermissionList_first_failure (pre : List BasePermission)
    (p : BasePermission) (post : List BasePermission) (user : Principal)
    (org : Option Organization)
    (hpre : pre.all (fun q => q.has_permission user org) = true)
    (hp : p.has_permission user org = false) :
    checkPermissionList (pre ++ p :: post) user org
      = .error p.get_error_message := by
  induction pre with
  | nil => simp [checkPermissionList, check_permission, hp]
  | cons q rest ih =>
      simp only [List.all_cons, Bool.and_eq_true] at hpre
      simp only [List.cons_append, checkPermissionList, check_permission,
        hpre.1, if_pos]
      exact ih hpre.2

/-- If the permission loop returns `ok`, every class granted. -/
theorem checkPermissionList_all_of_ok (classes : List BasePermission)
    (user : Principal) (org : Option Organization)
    (h : checkPermissionList classes user org = .ok ()) :
    classes.all (fun p => p.has_permission user org) = true := by
  induction classes with
  | nil => rfl
  | cons p rest ih =>
      by_cases hp : p.has_permission user org = true
      · simp only [checkPermissionList, check_permission, hp, if_pos] at h
        simp [List.all_cons, hp, ih h]
      · simp only [Bool.not_eq_true] at hp
        simp [checkPermissionList, check_permission, hp] at h

/-- Claim C6: a resolver guarded by `require_permission` with an ordered
list of permission classes runs its body exactly when every class
passes; classes are evaluated in declared order, and on failure the
surfaced `GraphQLError` carries exactly the first failing class's
message. -/
theorem require_permission_composition {β : Type}
    (classes : List BasePermission) (user : Principal)
    (org : Option Organization) (body : Unit → β) :
    (classes.all (fun p => p.has_permission user org) = true →
        require_permission classes user org body = .ok (body ())) ∧
    (∀ pre p post, classes = pre ++ p :: post →
        pre.all (fun q => q.has_permission user org) = true →
        p.has_permission user org = false →
        require_permission classes user org body
          = .error p.get_error_message) ∧
    (∀ v, require_permission classes user org body = .ok v →
        classes.all (fun p => p.has_permission user org) = true
          ∧ v = body ()) := by
  refine ⟨?_, ?_, ?_⟩
  · intro h
    simp [require_permission, checkPermissionList_ok_of_all classes user org h]
  · intro pre p post hps hpre hp
    subst hps
    simp [require_permission,
      checkPermissionList_first_failure pre p post user org hpre hp]
  · intro v hv
    unfold require_permission at hv
    cases hck : checkPermissionList classes user org with
    | error e => rw [hck] at hv; cases hv
    | ok unitVal =>
        cases unitVal
        rw [hck] at hv
        refine ⟨checkPermissionList_all_of_ok classes user org hck, ?_⟩
        cases hv
        rfl

/-- Witness for C6: an anonymous caller against the policy list
`[IsAuthenticated, IsOrganizationMember]` is stopped with the first
policy's message. -/
theorem require_permission_composition_witness :
    require_permission [IsAuthenticated, IsOrganizationMember] .anonymous
      none (fun _ => (0 : Nat)) = .error "Authentication required" :=
  (require_permission_composition [IsAuthenticated, IsOrganizationMember]
      .anonymous none (fun _ => (0 : Nat))).2.1 [] IsAuthenticated
      [IsOrganizationMember] rfl (by decide) (by decide)

/-- Whether an `Except` result carries a value. -/
def exceptHasValue {α β : Type} : Except α β → Bool
  | .ok _ => true
  | .error _ => false

/-- Claim C7 counterexample: on a model with no recognised organization
relationship, `GraphQLContext.filter_by_organization` raises a
`GraphQLError` rather than yielding an empty result. -/
theorem context_filter_unknown_raises_not_empty :
    GraphQLContext_filter_by_organization sampleDB (.user aliceU) (some acme)
        (.unknown "AuditLog" [⟨1⟩])
      = .error (unableToFilterMsg "AuditLog") := rfl

/-- Claim C7 amended: both scoping implementations fail closed on an
unrecognised model, but differently — `filter_queryset_by_organization`
yields the empty queryset, while `GraphQLContext.filter_by_organization`
raises a `GraphQLError`; neither ever returns the unfiltered
collection. -/
theorem unknown_models_fail_closed (db : DB) (org : Organization)
    (user : Principal) (orgCtx : Option Organization) (name : String)
    (rows : List UnknownRow) :
    filter_queryset_by_organization db (.unknown name rows) org
      = .unknown name [] ∧
    exceptHasValue (GraphQLContext_filter_by_organization db user orgCtx
      (.unknown name rows)) = false := by
  constructor
  · rfl
  · cases user with
    | anonymous => rfl
    | user u => cases orgCtx <;> rfl

/-- An email validator that accepts everything (stand-in for Django's
`validate_email` on well-formed fixture addresses). -/
def emailOkAll : String → Bool := fun _ => true

/-- A `CreateProject` input with the status omitted (the mutation then
defaults it to PLANNING). -/
def launchInput : ProjectInput := ⟨"Launch", none, none, none⟩

/-- A `CreateProject` input whose status is PLANNING explicitly. -/
def launchPlanningInput : ProjectInput := ⟨"Launch", none, some "PLANNING", none⟩

/-- Claim C9 (refuted by the code): the input validator and the GraphQL
enum accept exactly the five statuses including PLANNING, `CreateProject`
defaults to and stores PLANNING — but the model's own `STATUS_CHOICES`
enum cannot represent PLANNING (it only declares ACTIVE, COMPLETED,
ON_HOLD, CANCELLED, with default ACTIVE): the three layers disagree, and
a stored PLANNING status lies outside the model's declared enum. -/
theorem project_status_planning_mismatch :
    ("PLANNING" ∈ valid_project_statuses) ∧
    (ProjectStatusEnum_values = valid_project_statuses) ∧
    ("PLANNING" ∉ Project_STATUS_CHOICES.map Prod.fst) ∧
    (Project_status_default = "ACTIVE") ∧
    (validate_project_input 0 launchPlanningInput none = []) ∧
    ((CreateProject_mutate sampleDB 0 (.user aliceU) launchInput).1.toOption
        = some ⟨some ⟨3, 1, "Launch", "", "PLANNING", none⟩, true, []⟩) ∧
    (((CreateProject_mutate sampleDB 0 (.user aliceU) launchInput).2.projects.map
        (·.status)).contains "PLANNING" = true) := by
  decide

/-- Claim C10: `CreateOrganization` behind its `IsAuthenticated` guard —
anonymous callers are rejected with nothing written; for an
authenticated caller the mutation runs its body, and the body either
succeeds (appending exactly the new organization and re-homing the
calling user as its admin in the same transaction) or fails with a
non-empty error list and the store untouched. -/
theorem createOrganization_rehomes_caller (db : DB)
    (emailOk : String → Bool) (u : User) (input : OrganizationInput) :
    (CreateOrganization_mutate db emailOk .anonymous input
      = (.error "Authentication required", db)) ∧
    (CreateOrganization_mutate db emailOk (.user u) input
      = (.ok (CreateOrganization_body db emailOk u input).1,
         (CreateOrganization_body db emailOk u input).2)) ∧
    ((CreateOrganization_body db emailOk u input).1.success = true →
      (CreateOrganization_body db emailOk u input).1.organization
          = some (newOrganizationOf db input) ∧
      (CreateOrganization_body db emailOk u input).1.errors = [] ∧
      (CreateOrganization_body db emailOk u input).2.organizations
          = db.organizations ++ [newOrganizationOf db input] ∧
      (CreateOrganization_body db emailOk u input).2.users
          = db.users.map (fun v =>
              if v.id == u.id then
                { v with organization := some (newOrganizationOf db input),
                         isOrganizationAdmin := true }
              else v)) ∧
    ((CreateOrganization_body db emailOk u input).1.success = false →
      (CreateOrganization_body db emailOk u input).2 = db ∧
      (CreateOrganization_body db emailOk u input).1.errors ≠ []) := by
  by_cases hval : validate_organization_input emailOk input = []
  · by_cases hslug : (db.organizations.any (fun o => o.slug == input.slug)) = true
    · refine ⟨rfl, rfl, ?_, ?_⟩ <;> intro h <;>
        simp [CreateOrganization_body, hval, hslug] at h ⊢
    · refine ⟨rfl, rfl, ?_, ?_⟩ <;> intro h <;>
        simp [CreateOrganization_body, hval, hslug, newOrganizationOf] at h ⊢
  · refine ⟨rfl, rfl, ?_, ?_⟩ <;> intro h <;>
      simp [CreateOrganization_body, hval] at h ⊢

/-- Witness for C10 at a concrete success: `bobU` creates "Initech" and
the store gains exactly that organization with `bobU` as its admin. -/
def initechInput : OrganizationInput :=
  ⟨"Initech", "initech", "info@initech.test", none⟩

/-- Witness for C10: the success conjunct applied at the fixtures. -/
theorem createOrganization_rehomes_caller_witness :
    (CreateOrganization_body sampleDB emailOkAll bobU initechInput).1.organization
        = some (newOrganizationOf sampleDB initechInput) ∧
    (CreateOrganization_body sampleDB emailOkAll bobU initechInput).1.errors = [] ∧
    (CreateOrganization_body sampleDB emailOkAll bobU initechInput).2.organizations
        = sampleDB.organizations ++ [newOrganizationOf sampleDB initechInput] ∧
    (CreateOrganization_body sampleDB emailOkAll bobU initechInput).2.users
        = sampleDB.users.map (fun v =>
            if v.id == bobU.id then
              { v with organization := some (newOrganizationOf sampleDB initechInput),
                       isOrganizationAdmin := true }
            else v) :=
  (createOrganization_rehomes_caller sampleDB emailOkAll bobU
      initechInput).2.2.1 (by decide)

/-- A decode function for counterexamples: every token is invalid. -/
def decodeAllInvalid : String → DecodeResult := fun _ => .invalid

/-- Claim C3 counterexample: with the authorization header missing,
`JWTAuthentication.authenticate` returns `None` (no authentication
attempt) instead of failing with an Unauthenticated-class error. -/
theorem missing_credential_yields_none_not_error :
    JWTAuthentication_authenticate sampleDB decodeAllInvalid none
        = AuthOutcome.none ∧
    (JWTAuthentication_authenticate sampleDB decodeAllInvalid none).isFailed
        = false := by
  decide

/-- A resolved active user from a token means the find? predicate held. -/
theorem get_user_from_jwt_token_active (db : DB)
    (decode : String → DecodeResult) (token : String) (u : User)
    (h : get_user_from_jwt_token db decode token = some u) :
    u.isActive = true := by
  unfold get_user_from_jwt_token at h
  cases hv : verify_jwt_token decode token with
  | none => rw [hv] at h; cases h
  | some uid =>
      rw [hv] at h
      have hp := List.find?_some h
      simp only [Bool.and_eq_true] at hp
      exact hp.2

/-- Claim C3 amended: an absent or malformed bearer credential makes
`JWTAuthentication.authenticate` return `None` (anonymous, no error);
expired and invalid credentials fail with the Unauthenticated-class
messages; a valid credential resolving to an inactive user fails with
the AccountDisabled-class message; an authenticated principal is only
ever produced for an active user.  The GraphQL JWT middleware degrades
every failure to the anonymous principal instead of erroring. -/
theorem resolveIdentity_failure_modes (db : DB)
    (decode : String → DecodeResult) :
    (JWTAuthentication_authenticate db decode none = .none) ∧
    (∀ header authType token,
      splitAuthHeader header = some (authType, token) →
      pyLower authType = "bearer" →
      (decode token = .expired →
        JWTAuthentication_authenticate db decode (some header)
          = .failed "Token has expired") ∧
      (decode token = .invalid →
        JWTAuthentication_authenticate db decode (some header)
          = .failed "Invalid token") ∧
      (∀ u uid typ expPast, decode token = .payload uid typ expPast →
        db.users.find? (fun v => v.id == uid) = some u →
        u.isActive = false →
        JWTAuthentication_authenticate db decode (some header)
          = .failed "User account is disabled")) ∧
    (∀ header u,
      JWTAuthentication_authenticate db decode header = .ok u →
      u.isActive = true) ∧
    (∀ header, jwtMiddlewareUser db decode header = .anonymous ∨
      ∃ u, jwtMiddlewareUser db decode header = .user u
        ∧ u.isActive = true) := by
  refine ⟨rfl, ?_, ?_, ?_⟩
  · intro header authType token hsplit hlower
    refine ⟨?_, ?_, ?_⟩
    · intro hdec
      simp [JWTAuthentication_authenticate, hsplit, hlower, hdec]
    · intro hdec
      simp [JWTAuthentication_authenticate, hsplit, hlower, hdec]
    · intro u uid typ expPast hdec hfind hinactive
      simp [JWTAuthentication_authenticate, hsplit, hlower, hdec, hfind,
        hinactive]
  · intro header u hok
    unfold JWTAuthentication_authenticate at hok
    cases header with
    | none => cases hok
    | some h =>
        dsimp only at hok
        cases hsplit : splitAuthHeader h with
        | none => rw [hsplit] at hok; cases hok
        | some pair =>
            obtain ⟨authType, token⟩ := pair
            rw [hsplit] at hok
            dsimp only at hok
            by_cases hlower : (pyLower authType != "bearer") = true
            · rw [if_pos hlower] at hok; cases hok
            · rw [if_neg hlower] at hok
              cases hdec : decode token with
              | expired => rw [hdec] at hok; cases hok
              | invalid => rw [hdec] at hok; cases hok
              | payload uid typ expPast =>
                  rw [hdec] at hok
                  dsimp only at hok
                  cases hfind : db.users.find? (fun v => v.id == uid) with
                  | none => rw [hfind] at hok; cases hok
                  | some v =>
                      rw [hfind] at hok
                      dsimp only at hok
                      by_cases hact : v.isActive = true
                      · rw [if_neg (by simp [hact])] at hok
                        cases hok
                        exact hact
                      · rw [if_pos (by simp [Bool.not_eq_true] at hact ⊢; exact hact)] at hok
                        cases hok
  · intro header
    unfold jwtMiddlewareUser
    split
    · left; rfl
    · dsimp only
      split
      · left; rfl
      · split
        · rename_i u hget
          right
          exact ⟨u, rfl, get_user_from_jwt_token_active db decode _ u hget⟩
        · left; rfl

/-- A decode function for the C3 witness: token `t1` is expired. -/
def decodeT1Expired : String → DecodeResult :=
  fun s => if s == "t1" then .expired else .invalid

/-- Witness for C3: an expired bearer token is rejected with the
Unauthenticated-class message. -/
theorem resolveIdentity_failure_modes_witness :
    JWTAuthentication_authenticate sampleDB decodeT1Expired (some "Bearer t1")
      = .failed "Token has expired" :=
  ((resolveIdentity_failure_modes sampleDB decodeT1Expired).2.1 "Bearer t1"
      "Bearer" "t1" (by decide) (by decide)).1 (by decide)

/-- Claim C5 counterexample: a superuser (`rootU`, own organization
`acme`) presenting the other active organization's slug is rejected by
the API middleware with the TenantAccessDenied response — the claimed
superuser exception does not exist on this path. -/
theorem middleware_rejects_superuser_foreign_slug :
    rootU.isSuperuser = true ∧ globex.isActive = true ∧
    (sampleDB.getActiveOrgBySlug "globex" = some globex) ∧
    OrganizationMiddleware_process_api_request sampleDB (.user rootU)
        (some "globex")
      = .jsonError 403 "Access denied to organization" := by
  decide

/-- Claim C5 amended: for a user whose organization is O, the API
middleware resolves no header to O and O's own slug to O (when O is
active and in the store), but rejects any other organization's slug with
TenantAccessDenied for every user — superusers included, since
`User.can_access_organization_by_slug` has no superuser branch; only
`GraphQLContext.get_organization_by_slug` grants a superuser any active
organization by slug. -/
theorem resolveTenant_contract (db : DB) (u : User) (O other : Organization) :
    (OrganizationMiddleware_process_api_request db (.user u) none
      = .proceed u.organization) ∧
    (u.organization = some O → db.getActiveOrgBySlug O.slug = some O →
      OrganizationMiddleware_process_api_request db (.user u) (some O.slug)
        = .proceed (some O)) ∧
    (u.organization = some O → other.slug ≠ O.slug →
      OrganizationMiddleware_process_api_request db (.user u)
          (some other.slug)
        = .jsonError 403 "Access denied to organization") ∧
    (∀ slug org, u.isSuperuser = true → db.getActiveOrgBySlug slug = some org →
      GraphQLContext_get_organization_by_slug db (.user u) slug = some org) := by
  refine ⟨rfl, ?_, ?_, ?_⟩
  · intro horg hfind
    simp [OrganizationMiddleware_process_api_request,
      User.can_access_organization_by_slug, horg, hfind]
  · intro horg hne
    have hbe : (O.slug == other.slug) = false :=
      beq_eq_false_iff_ne.mpr (fun hh => hne hh.symm)
    simp [OrganizationMiddleware_process_api_request,
      User.can_access_organization_by_slug, horg, hbe]
  · intro slug org hsu hfind
    cases horg : u.organization with
    | none =>
        simp [GraphQLContext_get_organization_by_slug, hfind, horg, hsu]
    | some uorg =>
        by_cases hid : (uorg.id == org.id) = true
        · simp [GraphQLContext_get_organization_by_slug, hfind, horg, hid]
        · simp [GraphQLContext_get_organization_by_slug, hfind, horg, hid, hsu]

/-- Witness for C5: the superuser path of
`GraphQLContext.get_organization_by_slug` resolves the foreign slug. -/
theorem resolveTenant_contract_witness :
    GraphQLContext_get_organization_by_slug sampleDB (.user rootU) "globex"
      = some globex :=
  (resolveTenant_contract sampleDB rootU acme globex).2.2.2 "globex" globex
    (by decide) (by decide)

/-- Invariant of every context state reachable from a fresh context: the
request is untouched, a resolved user cache holds the request's identity
resolution, and a resolved organization cache holds the request's tenant
resolution (which also implies the identity was resolved). -/
def CtxInv (req : HttpRequest) (s : GQLContext) : Prop :=
  s.request = req ∧
  (s.userResolved = true → s.userCache = some (resolveRequestUser req)) ∧
  (s.orgResolved = true →
    s.orgCache = resolvedOrganization req ∧ s.userResolved = true)

/-- Running any sequence of property reads from an invariant-respecting
state resolves the identity exactly once iff it was unresolved and some
read consults it, resolves the tenant exactly once iff it was unresolved
and some organization read occurs, and every value served equals the
one-shot resolution of the request. -/
theorem ctxRun_spec (req : HttpRequest) (ops : List CtxOp) :
    ∀ s : GQLContext, CtxInv req s →
    (ctxRun s ops).idResolutions
        = (if s.userResolved then 0
           else if CtxOp.readUser ∈ ops ∨ CtxOp.readOrg ∈ ops then 1 else 0) ∧
    (ctxRun s ops).tenantResolutions
        = (if s.orgResolved then 0
           else if CtxOp.readOrg ∈ ops then 1 else 0) ∧
    ((ctxRun s ops).userValues.all
        (fun v => v == resolveRequestUser req) = true) ∧
    ((ctxRun s ops).orgValues.all
        (fun v => v == resolvedOrganization req) = true) := by
  induction ops with
  | nil =>
      intro s _
      simp [ctxRun]
  | cons op ops ih =>
      intro s hs
      obtain ⟨hreq, huser, horg⟩ := hs
      cases op with
      | readUser =>
          by_cases hur : s.userResolved = true
          · have hread : s.readUser = (s.userCache.getD .anonymous, s, false) := by
              simp [GQLContext.readUser, hur]
            have hval : s.userCache.getD .anonymous = resolveRequestUser req := by
              rw [huser hur]
              rfl
            have hrec := ih s ⟨hreq, huser, horg⟩
            refine ⟨?_, ?_, ?_, ?_⟩
            · simp [ctxRun, hread, hrec.1, hur]
            · simp [ctxRun, hread, hrec.2.1, List.mem_cons]
            · simp [ctxRun, hread, hval, hrec.2.2.1]
            · simp [ctxRun, hread, hrec.2.2.2]
          · have horgF : s.orgResolved = false := by
              by_contra hc
              simp only [Bool.not_eq_false] at hc
              exact hur (horg hc).2
            have hread : s.readUser
                = (resolveRequestUser req,
                   { request := req,
                     userCache := some (resolveRequestUser req),
                     orgCache := s.orgCache,
                     userResolved := true,
                     orgResolved := false }, true) := by
              simp [GQLContext.readUser, hur, hreq, horgF]
            have hinv1 : CtxInv req
                { request := req,
                  userCache := some (resolveRequestUser req),
                  orgCache := s.orgCache,
                  userResolved := true,
                  orgResolved := false } :=
              ⟨rfl, fun _ => rfl, fun hres => by cases hres⟩
            have hrec := ih _ hinv1
            refine ⟨?_, ?_, ?_, ?_⟩
            · simp [ctxRun, hread, hrec.1, hur]
            · simp [ctxRun, hread, hrec.2.1, horgF, List.mem_cons]
            · simp [ctxRun, hread, hrec.2.2.1]
            · simp [ctxRun, hread, hrec.2.2.2]
      | readOrg =>
          by_cases hor : s.orgResolved = true
          · have hread : s.readOrganization = (s.orgCache, s, (false, false)) := by
              simp [GQLContext.readOrganization, hor]
            have hval : s.orgCache = resolvedOrganization req := (horg hor).1
            have hurT : s.userResolved = true := (horg hor).2
            have hrec := ih s ⟨hreq, huser, horg⟩
            refine ⟨?_, ?_, ?_, ?_⟩
            · simp [ctxRun, hread, hrec.1, hurT, List.mem_cons]
            · simp [ctxRun, hread, hrec.2.1, hor]
            · simp [ctxRun, hread, hrec.2.2.1]
            · simp [ctxRun, hread, hval, hrec.2.2.2]
          · have horgF : s.orgResolved = false := by
              simpa using hor
            by_cases hur : s.userResolved = true
            · have hval : computeOrganization req (s.userCache.getD .anonymous)
                  = resolvedOrganization req := by
                rw [huser hur]
                rfl
              have hread : s.readOrganization
                  = (resolvedOrganization req,
                     { request := req,
                       userCache := s.userCache,
                       orgCache := resolvedOrganization req,
                       userResolved := true,
                       orgResolved := true }, (false, true)) := by
                simp [GQLContext.readOrganization, GQLContext.readUser, horgF,
                  hur, hreq, hval]
              have hinv1 : CtxInv req
                  { request := req,
                    userCache := s.userCache,
                    orgCache := resolvedOrganization req,
                    userResolved := true,
                    orgResolved := true } :=
                ⟨rfl, fun _ => huser hur, fun _ => ⟨rfl, rfl⟩⟩
              have hrec := ih _ hinv1
              refine ⟨?_, ?_, ?_, ?_⟩
              · simp [ctxRun, hread, hrec.1, hur]
              · simp [ctxRun, hread, hrec.2.1, horgF]
              · simp [ctxRun, hread, hrec.2.2.1]
              · simp [ctxRun, hread, hrec.2.2.2]
            · have hread : s.readOrganization
                  = (resolvedOrganization req,
                     { request := req,
                       userCache := some (resolveRequestUser req),
                       orgCache := resolvedOrganization req,
                       userResolved := true,
                       orgResolved := true }, (true, true)) := by
                simp [GQLContext.readOrganization, GQLContext.readUser, horgF,
                  hur, hreq, resolvedOrganization]
              have hinv1 : CtxInv req
                  { request := req,
                    userCache := some (resolveRequestUser req),
                    orgCache := resolvedOrganization req,
                    userResolved := true,
                    orgResolved := true } :=
                ⟨rfl, fun _ => rfl, fun _ => ⟨rfl, rfl⟩⟩
              have hrec := ih _ hinv1
              refine ⟨?_, ?_, ?_, ?_⟩
              · simp [ctxRun, hread, hrec.1, hur]
              · simp [ctxRun, hread, hrec.2.1, horgF]
              · simp [ctxRun, hread, hrec.2.2.1]
              · simp [ctxRun, hread, hrec.2.2.2]

/-- Claim C8: against a fresh per-request context, any number and order
of `user` / `organization` property reads performs the identity
resolution exactly once (on the first read that needs it) and the tenant
resolution exactly once (on the first organization read), and every read
returns the same resolved value. -/
theorem graphQLContext_memoizes_per_request (req : HttpRequest)
    (ops : List CtxOp) :
    (ctxRun (GQLContext.init req) ops).idResolutions
        = (if CtxOp.readUser ∈ ops ∨ CtxOp.readOrg ∈ ops then 1 else 0) ∧
    (ctxRun (GQLContext.init req) ops).tenantResolutions
        = (if CtxOp.readOrg ∈ ops then 1 else 0) ∧
    ((ctxRun (GQLContext.init req) ops).userValues.all
        (fun v => v == resolveRequestUser req) = true) ∧
    ((ctxRun (GQLContext.init req) ops).orgValues.all
        (fun v => v == resolvedOrganization req) = true) := by
  have h := ctxRun_spec req ops (GQLContext.init req)
    ⟨rfl, by simp [GQLContext.init], by simp [GQLContext.init]⟩
  refine ⟨?_, ?_, h.2.2.1, h.2.2.2⟩
  · rw [h.1]
    rfl
  · rw [h.2.1]
    rfl

end PM
